import Mathlib

/-!
Verification of the OSWorld overlay SFT recording tool
(`Turing_tooling/sft_utils/overlay_tool`) against its natural-language
specification.  The Python source is shallowly embedded: pure helper
functions become Lean functions, the mutable object state of
`ViewPortWindow`, `TrajectoryManager` and `VMInterface` becomes explicit
state records with state-passing transition functions, and the
asynchronous action pipeline is modelled as an event-step relation.
Machine integers are modelled as `Int` (Python integers are unbounded,
so no wrap-around is introduced).
-/

namespace OverlaySFT

/-! ## Viewport / coordinate engine (`viewport_window.py`)

`ViewCfg` collects the fields of `ViewPortWindow.__init__` that the
coordinate transforms and the edge-panning algorithm read.  In the source
`available_height = screen_height - hud_height` and
`needs_viewport = vm_width > screen_width or vm_height > available_height`
are computed in `__init__`; here they are derived functions. -/

structure ViewCfg where
  vm_width : Int
  vm_height : Int
  screen_width : Int
  screen_height : Int
  window_width : Int
  window_height : Int
  hud_height : Int
  pan_threshold : Int
  pan_speed : Int
deriving Repr, DecidableEq

/-- `self.available_height = self.screen_height - self.hud_height`. -/
def ViewCfg.available_height (cfg : ViewCfg) : Int :=
  cfg.screen_height - cfg.hud_height

/-- `self.needs_viewport = (self.vm_width > self.screen_width or
    self.vm_height > self.available_height)`. -/
def ViewCfg.needs_viewport (cfg : ViewCfg) : Bool :=
  cfg.screen_width < cfg.vm_width || cfg.available_height < cfg.vm_height

/-- `_vm_to_screen`: convert VM coordinates to screen coordinates.
`vp` is the current `(viewport_x, viewport_y)` offset pair. -/
def vm_to_screen (cfg : ViewCfg) (vp : Int × Int) (v : Int × Int) : Int × Int :=
  (v.1 - vp.1, v.2 - vp.2 + cfg.hud_height)

/-- `_screen_to_vm`: convert screen coordinates to VM coordinates and
clamp to VM bounds (`max(0, min(vm_x, vm_width - 1))`, same for y). -/
def screen_to_vm (cfg : ViewCfg) (vp : Int × Int) (p : Int × Int) : Int × Int :=
  let vm_x := p.1 + vp.1
  let vm_y := p.2 - cfg.hud_height + vp.2
  (max 0 (min vm_x (cfg.vm_width - 1)), max 0 (min vm_y (cfg.vm_height - 1)))

/-- `_update_viewport`: edge panning.  Returns the new
`(viewport_x, viewport_y)` pair given the mouse position; the update is
skipped when `not self.needs_viewport or self.show_overlay`. -/
def update_viewport (cfg : ViewCfg) (show_overlay : Bool) (vp : Int × Int)
    (mouse : Int × Int) : Int × Int :=
  if !cfg.needs_viewport || show_overlay then vp
  else
    let mx := mouse.1
    let my := mouse.2
    let vx :=
      if mx < cfg.pan_threshold then
        max 0 (vp.1 - cfg.pan_speed)
      else if cfg.window_width - cfg.pan_threshold < mx then
        min (max 0 (cfg.vm_width - cfg.window_width)) (vp.1 + cfg.pan_speed)
      else vp.1
    let vy :=
      if my < cfg.hud_height + cfg.pan_threshold then
        max 0 (vp.2 - cfg.pan_speed)
      else if cfg.window_height - cfg.pan_threshold < my then
        min (max 0 (cfg.vm_height - cfg.available_height)) (vp.2 + cfg.pan_speed)
      else vp.2
    (vx, vy)

/-- The invariant claimed for the viewport offset: each axis lies in
`[0, max 0 (canvas - visible)]`, the visible width being the window
width and the visible height being `available_height`. -/
def vp_in_bounds (cfg : ViewCfg) (vp : Int × Int) : Prop :=
  0 ≤ vp.1 ∧ vp.1 ≤ max 0 (cfg.vm_width - cfg.window_width) ∧
  0 ≤ vp.2 ∧ vp.2 ≤ max 0 (cfg.vm_height - cfg.available_height)

instance (cfg : ViewCfg) (vp : Int × Int) : Decidable (vp_in_bounds cfg vp) := by
  unfold vp_in_bounds; infer_instance

/-- A VM point `p` is fully visible under offset `vp` when its screen
projection lies inside the VM display area. -/
def fully_visible (cfg : ViewCfg) (vp : Int × Int) (p : Int × Int) : Prop :=
  vp.1 ≤ p.1 ∧ p.1 < vp.1 + cfg.window_width ∧
  vp.2 ≤ p.2 ∧ p.2 < vp.2 + cfg.available_height

instance (cfg : ViewCfg) (vp p : Int × Int) : Decidable (fully_visible cfg vp p) := by
  unfold fully_visible; infer_instance

/-- Run a sequence of edge-pan updates (each paired with the overlay flag
and the mouse position for that frame) from the initial offset `(0, 0)`
set in `__init__`. -/
def run_pans (cfg : ViewCfg) (frames : List (Bool × Int × Int)) : Int × Int :=
  frames.foldl (fun vp f => update_viewport cfg f.1 vp (f.2.1, f.2.2)) (0, 0)

theorem update_viewport_preserves_bounds (cfg : ViewCfg) (hs : 0 ≤ cfg.pan_speed)
    (so : Bool) (vp : Int × Int) (m : Int × Int) (h : vp_in_bounds cfg vp) :
    vp_in_bounds cfg (update_viewport cfg so vp m) := by
  obtain ⟨h1, h2, h3, h4⟩ := h
  unfold update_viewport
  split
  · exact ⟨h1, h2, h3, h4⟩
  · refine ⟨?_, ?_, ?_, ?_⟩ <;> simp only <;> split <;> omega

theorem vp_initial_in_bounds (cfg : ViewCfg) : vp_in_bounds cfg (0, 0) := by
  unfold vp_in_bounds
  refine ⟨le_refl 0, le_max_left 0 _, le_refl 0, le_max_left 0 _⟩

theorem run_pans_in_bounds_aux (cfg : ViewCfg) (hs : 0 ≤ cfg.pan_speed)
    (frames : List (Bool × Int × Int)) (vp : Int × Int) (h : vp_in_bounds cfg vp) :
    vp_in_bounds cfg
      (frames.foldl (fun vp f => update_viewport cfg f.1 vp (f.2.1, f.2.2)) vp) := by
  induction frames generalizing vp with
  | nil => exact h
  | cons f fs ih =>
      exact ih _ (update_viewport_preserves_bounds cfg hs f.1 vp (f.2.1, f.2.2) h)

/-- C7: after any sequence of edge-pan updates the viewport offset stays
within `[0, max 0 (canvas - visible)]` on both axes, and no single pan
update leaves those bounds (the pan step `pan_speed` is the source's
nonnegative constant 20). -/
theorem viewport_offset_always_in_bounds (cfg : ViewCfg) (so : Bool)
    (vp m : Int × Int) (frames : List (Bool × Int × Int))
    (hs : 0 ≤ cfg.pan_speed) (h : vp_in_bounds cfg vp) :
    vp_in_bounds cfg (update_viewport cfg so vp m) ∧
    vp_in_bounds cfg (run_pans cfg frames) :=
  ⟨update_viewport_preserves_bounds cfg hs so vp m h,
   run_pans_in_bounds_aux cfg hs frames (0, 0) (vp_initial_in_bounds cfg)⟩

/-- Closed witness for `viewport_offset_always_in_bounds` at the source's
constants (1920×1080 screen, 2560×1440 VM, threshold 50, speed 20): the
cursor sits on the right edge, then two more pan frames run. -/
theorem viewport_offset_always_in_bounds_witness :
    vp_in_bounds ⟨2560, 1440, 1920, 1080, 1920, 1080, 40, 50, 20⟩
      (update_viewport ⟨2560, 1440, 1920, 1080, 1920, 1080, 40, 50, 20⟩ false
        (600, 300) (1910, 500)) ∧
    vp_in_bounds ⟨2560, 1440, 1920, 1080, 1920, 1080, 40, 50, 20⟩
      (run_pans ⟨2560, 1440, 1920, 1080, 1920, 1080, 40, 50, 20⟩
        [(false, 1910, 500), (false, 10, 500), (false, 900, 1070)]) :=
  viewport_offset_always_in_bounds ⟨2560, 1440, 1920, 1080, 1920, 1080, 40, 50, 20⟩
    false (600, 300) (1910, 500)
    [(false, 1910, 500), (false, 10, 500), (false, 900, 1070)]
    (by decide) (by decide)

/-- C4: `screen_to_vm (vm_to_screen p) = p` for any point strictly inside
the canvas, under any clamped offset for which `p` is fully visible. -/
theorem screen_to_vm_round_trip (cfg : ViewCfg) (vp p : Int × Int)
    (hx0 : 0 ≤ p.1) (hxw : p.1 < cfg.vm_width)
    (hy0 : 0 ≤ p.2) (hyh : p.2 < cfg.vm_height)
    (hclamp : vp_in_bounds cfg vp) (hvis : fully_visible cfg vp p) :
    screen_to_vm cfg vp (vm_to_screen cfg vp p) = p := by
  obtain ⟨p1, p2⟩ := p
  simp only [vm_to_screen, screen_to_vm]
  simp only at hx0 hxw hy0 hyh
  have e1 : p1 - vp.1 + vp.1 = p1 := by ring
  have e2 : p2 - vp.2 + cfg.hud_height - cfg.hud_height + vp.2 = p2 := by ring
  rw [e1, e2]
  have m1 : min p1 (cfg.vm_width - 1) = p1 := min_eq_left (by omega)
  have m2 : min p2 (cfg.vm_height - 1) = p2 := min_eq_left (by omega)
  rw [m1, m2, max_eq_right hx0, max_eq_right hy0]

/-- Closed witness for `screen_to_vm_round_trip`: VM 2560×1440, offset
(100, 200), point (500, 600). -/
theorem screen_to_vm_round_trip_witness :
    screen_to_vm ⟨2560, 1440, 1920, 1080, 1920, 1080, 40, 50, 20⟩ (100, 200)
      (vm_to_screen ⟨2560, 1440, 1920, 1080, 1920, 1080, 40, 50, 20⟩ (100, 200) (500, 600))
      = (500, 600) :=
  screen_to_vm_round_trip ⟨2560, 1440, 1920, 1080, 1920, 1080, 40, 50, 20⟩
    (100, 200) (500, 600) (by decide) (by decide) (by decide) (by decide)
    (by decide) (by decide)

/-! ## Text escaping and command generation (`vm_interface.py`)

`VMInterface.execute_typewrite` escapes the payload with three
successive `str.replace` passes (backslash, single quote, double quote)
before embedding it in a single-quoted Python literal.  Each pass
replaces every occurrence of a single character, which is exactly a
per-character substitution over the string. -/

/-- One `str.replace(a, r)` pass where the pattern `a` is a single
character and `r` the replacement characters. -/
def replace_char (a : Char) (r : List Char) : List Char → List Char
  | [] => []
  | c :: cs => (if c = a then r else [c]) ++ replace_char a r cs

/-- `text.replace("\\", "\\\\").replace("'", "\\'").replace('"', '\\"')`
from `execute_typewrite` (`'\x27'` is the single-quote character). -/
def escaped_chars (t : List Char) : List Char :=
  replace_char '"' ['\\', '"']
    (replace_char '\x27' ['\\', '\x27']
      (replace_char '\\' ['\\', '\\'] t))

/-- String-level wrapper for `escaped_chars`. -/
def escaped_text (t : String) : String :=
  ⟨escaped_chars t.data⟩

/-- Reading back a single-quoted Python string literal body: every
backslash escape `\c` denotes the character `c` (the escapes produced by
`escaped_chars` are exactly `\\`, `\'` and `\"`, all of which Python
maps to their second character). -/
def unescape_literal : List Char → List Char
  | [] => []
  | '\\' :: c :: cs => c :: unescape_literal cs
  | c :: cs => c :: unescape_literal cs

/-- The single-quote character, used when assembling command text. -/
def sq : String := "\x27"

/-- High-level intents of the viewport window, as dispatched to
`VMInterface`.  `drag` carries start and end points; the call site
(`_execute_drag`) always passes `duration=0.5`. -/
inductive Intent where
  | click (x y : Int)
  | right_click (x y : Int)
  | typewrite (text : String)
  | hotkey (keys : List String)
  | press (key : String)
  | scroll (clicks : Int)
  | drag (start_x start_y end_x end_y : Int)
deriving Repr, DecidableEq

/-- The command string built by `VMInterface.execute_*` and sent to
`env.controller.execute_python_command`.  `scroll` is modelled in its
no-coordinates form (the only form the viewport uses); `drag` fixes
`duration=0.5` as at its call site, and Python renders the float `0.5`
as `0.5`. -/
def execute_command_text : Intent → String
  | .click x y => "pyautogui.click(" ++ toString x ++ ", " ++ toString y ++ ")"
  | .right_click x y => "pyautogui.rightClick(" ++ toString x ++ ", " ++ toString y ++ ")"
  | .typewrite text =>
      "pyautogui.typewrite(" ++ sq ++ escaped_text text ++ sq ++ ", interval=0.05)"
  | .hotkey keys =>
      "pyautogui.hotkey(" ++ String.intercalate ", " (keys.map fun k => sq ++ k ++ sq) ++ ")"
  | .press key => "pyautogui.press(" ++ sq ++ key ++ sq ++ ")"
  | .scroll clicks => "pyautogui.scroll(" ++ toString clicks ++ ")"
  | .drag sx sy ex ey =>
      "pyautogui.moveTo(" ++ toString sx ++ ", " ++ toString sy ++ "); pyautogui.drag("
        ++ toString (ex - sx) ++ ", " ++ toString (ey - sy) ++ ", duration=0.5)"

/-- The display command string built by the `ViewPortWindow._execute_*`
helpers (the `pg.`-prefixed `pg_command` f-strings) and passed to
`_execute_action` for recording.  Note `typewrite` embeds the raw text
with no escaping and no `interval` argument. -/
def pg_command_text : Intent → String
  | .click x y => "pg.click(" ++ toString x ++ ", " ++ toString y ++ ")"
  | .right_click x y => "pg.rightClick(" ++ toString x ++ ", " ++ toString y ++ ")"
  | .typewrite text => "pg.typewrite(" ++ sq ++ text ++ sq ++ ")"
  | .hotkey keys =>
      "pg.hotkey(" ++ String.intercalate ", " (keys.map fun k => sq ++ k ++ sq) ++ ")"
  | .press key => "pg.press(" ++ sq ++ key ++ sq ++ ")"
  | .scroll clicks => "pg.scroll(" ++ toString clicks ++ ")"
  | .drag sx sy ex ey =>
      "pg.moveTo(" ++ toString sx ++ ", " ++ toString sy ++ "); pg.drag("
        ++ toString (ex - sx) ++ ", " ++ toString (ey - sy) ++ ", duration=0.5)"

/-- The `action_type` tag passed to `_execute_action` for each intent. -/
def action_type_of : Intent → String
  | .click _ _ => "click"
  | .right_click _ _ => "right_click"
  | .typewrite _ => "typewrite"
  | .hotkey _ => "hotkey"
  | .press _ => "press"
  | .scroll _ => "scroll"
  | .drag _ _ _ _ => "drag"

theorem replace_char_append (a : Char) (r xs ys : List Char) :
    replace_char a r (xs ++ ys) = replace_char a r xs ++ replace_char a r ys := by
  induction xs with
  | nil => rfl
  | cons c cs ih => simp [replace_char, ih]

/-- Per-character view of the three-pass escaping. -/
theorem escaped_chars_cons (c : Char) (t : List Char) :
    escaped_chars (c :: t) =
      (if c = '\\' then ['\\', '\\']
       else if c = '\x27' then ['\\', '\x27']
       else if c = '"' then ['\\', '"']
       else [c]) ++ escaped_chars t := by
  by_cases h1 : c = '\\'
  · subst h1
    simp [escaped_chars, replace_char, replace_char_append]
  · by_cases h2 : c = '\x27'
    · subst h2
      simp [escaped_chars, replace_char, replace_char_append]
    · by_cases h3 : c = '"'
      · subst h3
        simp [escaped_chars, replace_char, replace_char_append]
      · simp [escaped_chars, replace_char, replace_char_append, h1, h2, h3]

theorem unescape_escaped_chars (t : List Char) :
    unescape_literal (escaped_chars t) = t := by
  induction t with
  | nil => rfl
  | cons c cs ih =>
      rw [escaped_chars_cons]
      by_cases h1 : c = '\\'
      · subst h1; simpa [unescape_literal] using ih
      · by_cases h2 : c = '\x27'
        · subst h2; simpa [unescape_literal] using ih
        · by_cases h3 : c = '"'
          · subst h3; simpa [unescape_literal] using ih
          · simp only [h1, h2, h3, if_false, List.singleton_append]
            rw [unescape_literal.eq_def]
            split
            · simp_all
            · rename_i c' cs' heq
              injection heq with h4 h5
              exact absurd h4 h1
            · rename_i c' cs' heq
              injection heq with h4 h5
              subst h4
              subst h5
              rw [ih]

/-- C5 counterexample: for the payload `it's "done"` the command produced
by `execute_typewrite` is `pyautogui.typewrite('it\'s \"done\"',
interval=0.05)`, not the claimed `typewrite('it\'s \"done\"',
interval=0.05)` (the generated command carries the `pyautogui.` module
prefix). -/
theorem typewrite_command_not_bare :
    execute_command_text (Intent.typewrite "it\x27s \"done\"")
      = "pyautogui.typewrite(\x27it\\\x27s \\\"done\\\"\x27, interval=0.05)" ∧
    execute_command_text (Intent.typewrite "it\x27s \"done\"")
      ≠ "typewrite(\x27it\\\x27s \\\"done\\\"\x27, interval=0.05)" := by
  constructor
  · rfl
  · decide

/-- C5 (amended): a `type(text)` intent produces exactly
`pyautogui.typewrite('<escaped text>', interval=0.05)` where backslash,
single-quote and double-quote characters are escaped, and re-parsing the
quoted literal recovers the original text. -/
theorem typewrite_command_escapes_and_round_trips (text : String) :
    execute_command_text (Intent.typewrite text)
      = "pyautogui.typewrite(" ++ sq ++ escaped_text text ++ sq ++ ", interval=0.05)" ∧
    unescape_literal (escaped_text text).data = text.data :=
  ⟨rfl, unescape_escaped_chars text.data⟩

/-- C6 counterexample: the drag command for start (100,100), end (300,50)
is `pyautogui.moveTo(100, 100); pyautogui.drag(200, -50, duration=0.5)`,
not the claimed `moveTo(100, 100); drag(200, -50, duration=0.5)`. -/
theorem drag_command_not_bare :
    execute_command_text (Intent.drag 100 100 300 50)
      ≠ "moveTo(100, 100); drag(200, -50, duration=0.5)" := by
  decide

/-- C6 (amended): a drag intent generates
`pyautogui.moveTo(x1, y1); pyautogui.drag(dx, dy, duration=0.5)` with
`dx = x2 - x1` and `dy = y2 - y1`; in particular start (100,100) and end
(300,50) yield `pyautogui.moveTo(100, 100); pyautogui.drag(200, -50,
duration=0.5)`. -/
theorem drag_command_format :
    (∀ x1 y1 x2 y2 : Int,
        execute_command_text (Intent.drag x1 y1 x2 y2)
          = "pyautogui.moveTo(" ++ toString x1 ++ ", " ++ toString y1
              ++ "); pyautogui.drag(" ++ toString (x2 - x1) ++ ", "
              ++ toString (y2 - y1) ++ ", duration=0.5)") ∧
    execute_command_text (Intent.drag 100 100 300 50)
      = "pyautogui.moveTo(100, 100); pyautogui.drag(200, -50, duration=0.5)" := by
  constructor
  · intro x1 y1 x2 y2
    rfl
  · decide

/-! ## Trajectory recorder (`trajectory_manager.py`) and the action
execution pipeline (`viewport_window.py`)

`TrajectoryManager` owns the ordered step list and the step counter;
`ViewPortWindow._execute_action` is the single-flight pipeline.  The
worker body of `_execute_action` is modelled synchronously (the
single-flight gate guarantees the worker of one accepted intent finishes
before the next intent is accepted); its latent inputs — the outcome of
the remote call, the wall-clock time recorded in the step, and the
refreshed screenshot — are passed in explicitly. -/

/-- The structured `action_details` parameter map, one shape per action
type (`{"x": x, "y": y}`, `{"text": text}`, ...).  `sleep` renders its
`seconds` value as the string Python would interpolate. -/
inductive ADetails where
  | clickD (x y : Int)
  | typeD (text : String)
  | hotkeyD (keys : List String)
  | pressD (key : String)
  | scrollD (clicks : Int)
  | dragD (start_x start_y end_x end_y : Int)
  | sleepD (seconds : String)
deriving Repr, DecidableEq

/-- The `details` dict passed to `_execute_action` for each intent. -/
def details_of : Intent → ADetails
  | .click x y => .clickD x y
  | .right_click x y => .clickD x y
  | .typewrite text => .typeD text
  | .hotkey keys => .hotkeyD keys
  | .press key => .pressD key
  | .scroll clicks => .scrollD clicks
  | .drag sx sy ex ey => .dragD sx sy ex ey

/-- One recorded step, as built by `TrajectoryManager.record_action`
(the `step_log` dict).  `timestamp` models `time.time()` as an opaque
tick passed in by the caller. -/
structure Step where
  step : Nat
  screenshot : String
  instruction : String
  action : String
  action_type : String
  timestamp : Nat
  action_details : ADetails
deriving Repr, DecidableEq

/-- State of a `TrajectoryManager`: the ordered step list, the step
counter, the output directory and the task instruction. -/
structure TrajState where
  trajectory : List Step
  step_count : Nat
  trajectory_dir : String
  instruction : String
deriving Repr, DecidableEq

/-- `save_before_screenshot`: the returned path
`trajectory_dir/step_{step_count}_before.png`. -/
def before_screenshot_path (t : TrajState) : String :=
  t.trajectory_dir ++ "/step_" ++ toString t.step_count ++ "_before.png"

/-- `record_action`: append a step with the current `step_count` as its
index and increment the counter. -/
def record_action (t : TrajState) (action_command screenshot_path action_type : String)
    (action_details : ADetails) (now : Nat) : TrajState :=
  { t with
    trajectory := t.trajectory ++
      [{ step := t.step_count
         screenshot := screenshot_path
         instruction := t.instruction
         action := action_command
         action_type := action_type
         timestamp := now
         action_details := action_details }]
    step_count := t.step_count + 1 }

/-- The result dict of `VMInterface._execute_command`: a success flag
and the `error` entry (`none` models an absent key, so that
`result.get('error', 'Unknown')` yields the default). -/
structure ExecResult where
  success : Bool
  error : Option String
deriving Repr, DecidableEq

/-- The `ViewPortWindow` fields touched by the action pipeline.
`current_screenshot` is an opaque frame identifier (`none` = no frame
displayed yet). -/
structure SessState where
  traj : TrajState
  is_busy : Bool
  show_overlay : Bool
  status_message : String
  last_action : String
  current_screenshot : Option Nat
deriving Repr, DecidableEq

/-- `_execute_action`: the single-flight gate plus the worker body.
`result` is the dict returned by the dispatched `execute_fn`, `now` the
step timestamp, and `new_img` the screenshot fetched after success
(`none` = refresh failed, display keeps the old frame). -/
def execute_action (s : SessState) (pg_command action_type : String)
    (details : ADetails) (result : ExecResult) (now : Nat)
    (new_img : Option Nat) : SessState :=
  if s.is_busy then s
  else
    let s1 := { s with is_busy := true, status_message := "Executing..." }
    let screenshot_path :=
      match s1.current_screenshot with
      | some _ => before_screenshot_path s1.traj
      | none => ""
    let s2 :=
      if result.success then
        { s1 with
          traj := record_action s1.traj pg_command screenshot_path action_type details now
          last_action := pg_command
          current_screenshot :=
            match new_img with
            | some img => some img
            | none => s1.current_screenshot
          status_message := "" }
      else
        { s1 with status_message := "Error: " ++ result.error.getD "Unknown" }
    { s2 with is_busy := false, show_overlay := false }

/-- An intent dispatched through one of the `ViewPortWindow._execute_*`
helpers: `_execute_action` receives the `pg.`-prefixed display command,
the action tag and the details dict. -/
def dispatch_intent (s : SessState) (i : Intent) (result : ExecResult)
    (now : Nat) (new_img : Option Nat) : SessState :=
  execute_action s (pg_command_text i) (action_type_of i) (details_of i) result now new_img

/-- C1 counterexample: for a successful `type("a")` intent the appended
step stores the viewport display string `pg.typewrite('a')`, while the
command generated and sent to the remote session is
`pyautogui.typewrite('a', interval=0.05)` — not the identical string. -/
theorem step_stores_display_not_sent_command :
    ((dispatch_intent ⟨⟨[], 0, "results", "task"⟩, false, false, "", "", none⟩
        (Intent.typewrite "a") ⟨true, none⟩ 7 none).traj.trajectory.map Step.action)
      = ["pg.typewrite(\x27a\x27)"] ∧
    execute_command_text (Intent.typewrite "a")
      = "pyautogui.typewrite(\x27a\x27, interval=0.05)" ∧
    "pg.typewrite(\x27a\x27)" ≠ "pyautogui.typewrite(\x27a\x27, interval=0.05)" := by
  refine ⟨?_, rfl, ?_⟩ <;> decide

/-- C1 (amended): on success the pipeline appends exactly one Step whose
command field is the viewport-generated display command
(`pg_command_text`, the `pg.`-prefixed string, which for `typewrite`
embeds the raw text without escaping or interval), not in general the
string sent to the remote session. -/
theorem pipeline_appends_display_command (s : SessState) (i : Intent)
    (result : ExecResult) (now : Nat) (new_img : Option Nat)
    (hb : s.is_busy = false) (hs : result.success = true) :
    (dispatch_intent s i result now new_img).traj.trajectory
      = s.traj.trajectory ++
        [{ step := s.traj.step_count
           screenshot :=
             match s.current_screenshot with
             | some _ => before_screenshot_path s.traj
             | none => ""
           instruction := s.traj.instruction
           action := pg_command_text i
           action_type := action_type_of i
           timestamp := now
           action_details := details_of i }] := by
  simp [dispatch_intent, execute_action, hb, hs, record_action]

/-- Closed witness for `pipeline_appends_display_command` at a concrete
click intent. -/
theorem pipeline_appends_display_command_witness :
    (dispatch_intent ⟨⟨[], 0, "results", "task"⟩, false, false, "", "", none⟩
        (Intent.click 5 6) ⟨true, none⟩ 3 (some 1)).traj.trajectory
      = [{ step := 0
           screenshot := ""
           instruction := "task"
           action := "pg.click(5, 6)"
           action_type := "click"
           timestamp := 3
           action_details := ADetails.clickD 5 6 }] := by
  have h := pipeline_appends_display_command
    ⟨⟨[], 0, "results", "task"⟩, false, false, "", "", none⟩
    (Intent.click 5 6) ⟨true, none⟩ 3 (some 1) rfl rfl
  simpa using h

/-! ### C2: step count vs. successful executions -/

/-- One call into `_execute_action`: the display command, tag, details,
the execution result, the step timestamp and the refreshed frame. -/
structure ExecIn where
  pg_command : String
  action_type : String
  details : ADetails
  result : ExecResult
  now : Nat
  new_img : Option Nat
deriving Repr, DecidableEq

/-- Run one pipeline invocation. -/
def run_action (s : SessState) (e : ExecIn) : SessState :=
  execute_action s e.pg_command e.action_type e.details e.result e.now e.new_img

/-- Run a sequence of pipeline invocations. -/
def run_actions (s : SessState) (es : List ExecIn) : SessState :=
  es.foldl run_action s

theorem run_action_clears_busy (s : SessState) (e : ExecIn)
    (hb : s.is_busy = false) : (run_action s e).is_busy = false := by
  simp only [run_action, execute_action, hb, if_false, Bool.false_eq_true]

theorem run_action_traj_length (s : SessState) (e : ExecIn)
    (hb : s.is_busy = false) :
    (run_action s e).traj.trajectory.length
      = s.traj.trajectory.length + (if e.result.success then 1 else 0) := by
  simp only [run_action, execute_action, hb, if_false, Bool.false_eq_true]
  split
  · simp [record_action]
  · simp

theorem run_actions_traj_length (es : List ExecIn) (s : SessState)
    (hb : s.is_busy = false) :
    (run_actions s es).traj.trajectory.length
      = s.traj.trajectory.length + (es.filter (fun e => e.result.success)).length := by
  induction es generalizing s with
  | nil => simp [run_actions]
  | cons e es ih =>
      have h1 := run_action_traj_length s e hb
      have h2 := ih (run_action s e) (run_action_clears_busy s e hb)
      show (run_actions (run_action s e) es).traj.trajectory.length = _
      rw [h2, h1, List.filter_cons]
      by_cases hsucc : e.result.success = true
      · simp [hsucc]
        omega
      · simp [hsucc]

/-- C2: over any sequence of accepted intents the number of appended
Steps equals the number of executions that reported success, and a
failed execution appends nothing and sets only the error status
message. -/
theorem steps_count_successes (s : SessState) (es : List ExecIn) (e : ExecIn)
    (hb : s.is_busy = false) (he : e.result.success = false) :
    (run_actions s es).traj.trajectory.length
      = s.traj.trajectory.length + (es.filter (fun x => x.result.success)).length
    ∧ (run_action s e).traj.trajectory = s.traj.trajectory
    ∧ (run_action s e).status_message = "Error: " ++ e.result.error.getD "Unknown" := by
  refine ⟨run_actions_traj_length es s hb, ?_, ?_⟩ <;>
    simp [run_action, execute_action, hb, he]

/-- Closed witness for `steps_count_successes`: one successful click and
one failed click leave exactly one recorded step, and the failure sets
the error status. -/
theorem steps_count_successes_witness :
    (run_actions ⟨⟨[], 0, "results", "task"⟩, false, false, "", "", none⟩
        [⟨"pg.click(1, 2)", "click", ADetails.clickD 1 2, ⟨true, none⟩, 1, none⟩,
         ⟨"pg.click(3, 4)", "click", ADetails.clickD 3 4, ⟨false, some "boom"⟩, 2, none⟩]
      ).traj.trajectory.length = 0 + 1
    ∧ (run_action ⟨⟨[], 0, "results", "task"⟩, false, false, "", "", none⟩
        ⟨"pg.click(3, 4)", "click", ADetails.clickD 3 4, ⟨false, some "boom"⟩, 2, none⟩
      ).traj.trajectory = []
    ∧ (run_action ⟨⟨[], 0, "results", "task"⟩, false, false, "", "", none⟩
        ⟨"pg.click(3, 4)", "click", ADetails.clickD 3 4, ⟨false, some "boom"⟩, 2, none⟩
      ).status_message = "Error: " ++ (some "boom").getD "Unknown" :=
  steps_count_successes ⟨⟨[], 0, "results", "task"⟩, false, false, "", "", none⟩
    [⟨"pg.click(1, 2)", "click", ADetails.clickD 1 2, ⟨true, none⟩, 1, none⟩,
     ⟨"pg.click(3, 4)", "click", ADetails.clickD 3 4, ⟨false, some "boom"⟩, 2, none⟩]
    ⟨"pg.click(3, 4)", "click", ADetails.clickD 3 4, ⟨false, some "boom"⟩, 2, none⟩
    rfl rfl

/-! ### C3: single-flight busy gating

`_execute_action` (and `_execute_sleep`) run `if self.is_busy: return`
followed by `self.is_busy = True` on the pygame thread, then start a
worker thread whose body performs the remote call and whose `finally`
clause clears `is_busy`.  The thread structure is modelled as an event
system: `submit` is the gate-and-spawn step on the controlling thread,
`begin_call` is the worker reaching its remote call, and `complete` is
the worker's `finally` block.  Workers are counted (not assumed unique),
so the at-most-one-in-flight property is proved, not built in. -/

inductive PEvent where
  | submit
  | begin_call
  | complete (success : Bool)
deriving Repr, DecidableEq

structure PipeState where
  busy : Bool
  /-- workers spawned whose remote call has not yet begun -/
  pending : Nat
  /-- workers whose remote call has begun and not yet completed -/
  called : Nat
  /-- remote calls begun so far -/
  remote_calls : Nat
  /-- steps recorded so far -/
  steps : Nat
deriving Repr, DecidableEq

/-- One scheduling step of the pipeline. -/
def pipe_step (s : PipeState) : PEvent → PipeState
  | .submit =>
      if s.busy then s
      else { s with busy := true, pending := s.pending + 1 }
  | .begin_call =>
      if s.pending = 0 then s
      else { s with
        pending := s.pending - 1
        called := s.called + 1
        remote_calls := s.remote_calls + 1 }
  | .complete success =>
      if s.called = 0 then s
      else { s with
        called := s.called - 1
        busy := false
        steps := s.steps + (if success then 1 else 0) }

/-- Initial pipeline state at window start. -/
def init_pipe : PipeState :=
  { busy := false, pending := 0, called := 0, remote_calls := 0, steps := 0 }

def run_pipe (es : List PEvent) : PipeState :=
  es.foldl pipe_step init_pipe

/-- Workers currently in flight. -/
def in_flight (s : PipeState) : Nat :=
  s.pending + s.called

/-- The single-flight invariant: at most one worker is in flight, and a
worker in flight implies the busy flag is set. -/
def PipeInv (s : PipeState) : Prop :=
  in_flight s ≤ 1 ∧ (0 < in_flight s → s.busy = true)

instance (s : PipeState) : Decidable (PipeInv s) := by
  unfold PipeInv; infer_instance

theorem pipe_step_preserves_inv (s : PipeState) (e : PEvent) (h : PipeInv s) :
    PipeInv (pipe_step s e) := by
  obtain ⟨h1, h2⟩ := h
  unfold PipeInv in_flight at *
  cases e with
  | submit =>
      simp only [pipe_step]
      split
      · exact ⟨h1, h2⟩
      · rename_i hb
        have h0 : s.pending + s.called = 0 := by
          by_contra hne
          exact hb (h2 (by omega))
        refine ⟨by simp only; omega, fun hpos => rfl⟩
  | begin_call =>
      simp only [pipe_step]
      split
      · exact ⟨h1, h2⟩
      · rename_i hp
        refine ⟨by simp only; omega, fun hpos => h2 (by omega)⟩
  | complete success =>
      simp only [pipe_step]
      split
      · exact ⟨h1, h2⟩
      · rename_i hc
        refine ⟨by simp only; omega, fun hpos => ?_⟩
        simp only at hpos
        exfalso
        omega

theorem run_pipe_inv_aux (es : List PEvent) (s : PipeState) (h : PipeInv s) :
    PipeInv (es.foldl pipe_step s) := by
  induction es generalizing s with
  | nil => exact h
  | cons e es ih => exact ih _ (pipe_step_preserves_inv s e h)

/-- C3: an intent submitted while busy is dropped (the state — including
the remote-call and step counters — is unchanged); from the initial
state every reachable pipeline state has at most one worker in flight,
with the busy flag set whenever one is; consequently a remote call can
only begin from a state whose busy flag is already set. -/
theorem busy_gate_single_flight (s : PipeState) (es : List PEvent)
    (hb : s.busy = true) :
    pipe_step s PEvent.submit = s
    ∧ PipeInv (run_pipe es)
    ∧ ((pipe_step (run_pipe es) PEvent.begin_call).remote_calls
          ≠ (run_pipe es).remote_calls
        → (run_pipe es).busy = true) := by
  have hinv : PipeInv (run_pipe es) := by
    apply run_pipe_inv_aux
    constructor
    · decide
    · intro h
      exact absurd h (by decide)
  refine ⟨by simp [pipe_step, hb], hinv, ?_⟩
  intro hne
  apply hinv.2
  simp only [pipe_step] at hne
  by_cases hp : (run_pipe es).pending = 0
  · simp [hp] at hne
  · unfold in_flight
    omega

/-- Closed witness for `busy_gate_single_flight`: a busy state drops a
submit, and after one `submit` the reachable state satisfies the
invariant and its pending remote call can only begin under `busy`. -/
theorem busy_gate_single_flight_witness :
    pipe_step ⟨true, 1, 0, 5, 2⟩ PEvent.submit = ⟨true, 1, 0, 5, 2⟩
    ∧ PipeInv (run_pipe [PEvent.submit])
    ∧ (run_pipe [PEvent.submit]).busy = true :=
  have h := busy_gate_single_flight ⟨true, 1, 0, 5, 2⟩ [PEvent.submit] rfl
  ⟨h.1, h.2.1, h.2.2 (by decide)⟩

/-! ### C8: cancel-key precedence (`start`, the `K_ESCAPE` branch) -/

/-- The `ViewPortWindow` UI-mode fields read and written by the
`K_ESCAPE` handler in the event loop. -/
structure UIState where
  is_running : Bool
  show_overlay : Bool
  overlay_type_active : Bool
  overlay_type_text : String
  picker_active : Option String
  drag_mode_active : Bool
  drag_start_point : Option (Int × Int)
  status_message : String
deriving Repr, DecidableEq

/-- The `K_ESCAPE` branch of the event loop: priority
picker → typing → overlay → drag mode → exit. -/
def handle_escape (s : UIState) : UIState :=
  if s.picker_active.isSome then
    { s with picker_active := none }
  else if s.show_overlay && s.overlay_type_active then
    { s with overlay_type_active := false }
  else if s.show_overlay then
    { s with show_overlay := false, picker_active := none }
  else if s.drag_mode_active then
    { s with drag_mode_active := false, drag_start_point := none
             status_message := "Drag cancelled" }
  else
    { s with is_running := false }

/-- C8: with a picker open, text entry active and the overlay shown,
pressing cancel closes only the picker: text-entry flag and buffer,
overlay visibility, drag state and the running flag are all unchanged. -/
theorem escape_closes_only_picker (s : UIState)
    (hp : s.picker_active.isSome = true)
    (ht : s.overlay_type_active = true)
    (ho : s.show_overlay = true) :
    handle_escape s = { s with picker_active := none }
    ∧ (handle_escape s).overlay_type_active = s.overlay_type_active
    ∧ (handle_escape s).overlay_type_text = s.overlay_type_text
    ∧ (handle_escape s).show_overlay = s.show_overlay
    ∧ (handle_escape s).drag_mode_active = s.drag_mode_active
    ∧ (handle_escape s).drag_start_point = s.drag_start_point
    ∧ (handle_escape s).is_running = s.is_running := by
  refine ⟨?_, ?_, ?_, ?_, ?_, ?_, ?_⟩ <;> simp [handle_escape, hp]

/-- Closed witness for `escape_closes_only_picker` at a concrete state
with the hotkey picker open during text entry. -/
theorem escape_closes_only_picker_witness :
    handle_escape ⟨true, true, true, "hel", some "hotkey", false, none, ""⟩
      = { is_running := true, show_overlay := true, overlay_type_active := true
          overlay_type_text := "hel", picker_active := none
          drag_mode_active := false, drag_start_point := none, status_message := "" }
    ∧ (handle_escape ⟨true, true, true, "hel", some "hotkey", false, none, ""⟩).overlay_type_active = true
    ∧ (handle_escape ⟨true, true, true, "hel", some "hotkey", false, none, ""⟩).overlay_type_text = "hel"
    ∧ (handle_escape ⟨true, true, true, "hel", some "hotkey", false, none, ""⟩).show_overlay = true
    ∧ (handle_escape ⟨true, true, true, "hel", some "hotkey", false, none, ""⟩).drag_mode_active = false
    ∧ (handle_escape ⟨true, true, true, "hel", some "hotkey", false, none, ""⟩).drag_start_point = none
    ∧ (handle_escape ⟨true, true, true, "hel", some "hotkey", false, none, ""⟩).is_running = true := by
  have h := escape_closes_only_picker
    ⟨true, true, true, "hel", some "hotkey", false, none, ""⟩ rfl rfl rfl
  simpa using h

/-! ### C10: screenshot fetch with cached fallback (`vm_interface.py`)

`get_screenshot` returns the fresh frame and caches a copy when the
fetch yields bytes; on any failure (no observation, no bytes, or an
exception) it returns the cached `_last_screenshot` unchanged.  Frames
are opaque identifiers; the per-attempt fetch outcome (`env._get_obs`)
is an explicit input, `none` covering every failure mode. -/

structure VMCache where
  last_screenshot : Option Nat
deriving Repr, DecidableEq

/-- `get_screenshot`: returns `(frame, new cache)`. -/
def get_screenshot (obs : Option Nat) (s : VMCache) : Option Nat × VMCache :=
  match obs with
  | some img => (some img, ⟨some img⟩)
  | none => (s.last_screenshot, s)

/-- Outcome of `get_screenshot_with_retry`: returned frame, final cache,
and how many `time.sleep(delay)` calls the loop performed. -/
structure RetryOut where
  result : Option Nat
  cache : VMCache
  sleeps : Nat
deriving Repr, DecidableEq

/-- `get_screenshot_with_retry`: the attempts list has one fetch outcome
per loop iteration (`max_retries` entries); the loop returns the first
non-`None` frame and sleeps between consecutive failed attempts only. -/
def get_screenshot_with_retry : List (Option Nat) → VMCache → RetryOut
  | [], s => ⟨none, s, 0⟩
  | a :: rest, s =>
      let r := get_screenshot a s
      match r.1 with
      | some img => ⟨some img, r.2, 0⟩
      | none =>
          match rest with
          | [] => ⟨none, r.2, 0⟩
          | b :: bs =>
              let out := get_screenshot_with_retry (b :: bs) r.2
              ⟨out.result, out.cache, out.sleeps + 1⟩

theorem retry_none_iff_aux (attempts : List (Option Nat)) (s : VMCache)
    (h : attempts ≠ []) :
    (get_screenshot_with_retry attempts s).result = none
      ↔ s.last_screenshot = none ∧ attempts.all (fun a => a.isNone) = true := by
  induction attempts generalizing s with
  | nil => exact absurd rfl h
  | cons a rest ih =>
      rw [get_screenshot_with_retry.eq_def]
      cases a with
      | some img => simp [get_screenshot]
      | none =>
          cases hs : s.last_screenshot with
          | some img => simp [get_screenshot, hs]
          | none =>
              cases rest with
              | nil => simp [get_screenshot, hs]
              | cons b bs =>
                  have hrec := ih s (by simp)
                  simp [get_screenshot, hs] at hrec ⊢
                  exact hrec

/-- C10: once a frame is cached, every retry call returns a frame on the
first attempt with zero sleeps; and the retry loop returns `None` iff no
frame was ever cached and every attempt's fetch fails. -/
theorem cached_frame_short_circuits_retry (s : VMCache)
    (attempts : List (Option Nat)) (h : attempts ≠ []) :
    (s.last_screenshot.isSome = true →
        (get_screenshot_with_retry attempts s).sleeps = 0
        ∧ (get_screenshot_with_retry attempts s).result.isSome = true)
    ∧ ((get_screenshot_with_retry attempts s).result = none
        ↔ s.last_screenshot = none ∧ attempts.all (fun a => a.isNone) = true) := by
  refine ⟨?_, retry_none_iff_aux attempts s h⟩
  intro hcache
  obtain ⟨img, hs⟩ := Option.isSome_iff_exists.mp hcache
  cases attempts with
  | nil => exact absurd rfl h
  | cons a rest =>
      rw [get_screenshot_with_retry.eq_def]
      cases a with
      | some fresh => simp [get_screenshot]
      | none => simp [get_screenshot, hs]

/-- Closed witness for `cached_frame_short_circuits_retry`: a cached
frame and three failing fetch attempts. -/
theorem cached_frame_short_circuits_retry_witness :
    ((get_screenshot_with_retry [none, none, none] ⟨some 9⟩).sleeps = 0
      ∧ (get_screenshot_with_retry [none, none, none] ⟨some 9⟩).result.isSome = true)
    ∧ ((get_screenshot_with_retry [none, none, none] ⟨some 9⟩).result = none
        ↔ (⟨some 9⟩ : VMCache).last_screenshot = none
          ∧ ([none, none, none] : List (Option Nat)).all (fun a => a.isNone) = true) :=
  have h := cached_frame_short_circuits_retry ⟨some 9⟩ [none, none, none] (by decide)
  ⟨h.1 rfl, h.2⟩

/-! ### C9: derived transcript generation (`generate_colab_notebook`)

`_build_notebook` assembles markdown cells; `_build_metadata_cell`
embeds `datetime.now().isoformat()` in its JSON block, so the current
wall-clock time is an explicit input `now_iso` here.  `json.dumps` with
`indent=2` on the fixed-shape metadata dict is rendered literally;
string values go through JSON string escaping. -/

/-- JSON string escaping as `json.dumps` performs it for the escapes
relevant here (backslash, double quote, newline, tab, carriage
return). -/
def json_escape_chars : List Char → List Char
  | [] => []
  | c :: cs =>
      (if c = '\\' then ['\\', '\\']
       else if c = '"' then ['\\', '"']
       else if c = '\n' then ['\\', 'n']
       else if c = '\t' then ['\\', 't']
       else if c = '\x0d' then ['\\', 'r']
       else [c]) ++ json_escape_chars cs

/-- A JSON string literal. -/
def json_str (s : String) : String :=
  "\"" ++ String.mk (json_escape_chars s.data) ++ "\""

/-- `json.dumps(metadata, indent=2)` for the metadata dict built in
`_build_metadata_cell` (insertion order, two-space indent; the
placeholder pass rate `0.0` renders as `0.0`). -/
def dumps_metadata (task_id domain instruction : String) (total_steps : Nat)
    (now_iso : String) : String :=
  "\x7b\n  \"task_id\": " ++ json_str task_id
    ++ ",\n  \"domain\": " ++ json_str domain
    ++ ",\n  \"instruction\": " ++ json_str instruction
    ++ ",\n  \"total_steps\": " ++ toString total_steps
    ++ ",\n  \"timestamp\": " ++ json_str now_iso
    ++ ",\n  \"model_pass_rate\": \x7b\n    \"claude-sonnet-4-5\": 0.0\n  \x7d\n\x7d"

/-- `_build_metadata_cell`: the metadata markdown content, embedding the
generation timestamp. -/
def build_metadata_cell (task_id domain instruction : String) (total_steps : Nat)
    (now_iso : String) : String :=
  "## Task Metadata\n\n```json\n"
    ++ dumps_metadata task_id domain instruction total_steps now_iso ++ "\n```"

/-- A notebook markdown cell; `source` is `content.split("\n")`. -/
structure Cell where
  cell_type : String
  source : List String
deriving Repr, DecidableEq

/-- Python `str.split("\n")`: split at every newline, keeping empty
pieces (`"".split("\n") == [""]`, `"a\n".split("\n") == ["a", ""]`). -/
def split_lines : List Char → List (List Char)
  | [] => [[]]
  | c :: cs =>
      let r := split_lines cs
      if c = '\n' then [] :: r
      else
        match r with
        | [] => [[c]]
        | l :: ls => (c :: l) :: ls

/-- `_create_markdown_cell`. -/
def create_markdown_cell (content : String) : Cell :=
  ⟨"markdown", (split_lines content.data).map String.mk⟩

/-- `_generate_reasoning`: the templated description keyed by action tag
and parameters.  The source reads the fields out of the details dict; a
tag paired with a details shape it never occurs with falls through to
the same default branch as an unknown tag. -/
def generate_reasoning (step : Step) : String :=
  match step.action_type, step.action_details with
  | "click", .clickD x y =>
      "I\x27ll click at position (" ++ toString x ++ ", " ++ toString y
        ++ ") to interact with the element at that location."
  | "double_click", .clickD x y =>
      "I\x27ll double-click at position (" ++ toString x ++ ", " ++ toString y
        ++ ") to open or select the element."
  | "right_click", .clickD x y =>
      "I\x27ll right-click at position (" ++ toString x ++ ", " ++ toString y
        ++ ") to open the context menu."
  | "typewrite", .typeD text =>
      "I\x27ll type \x27" ++ text ++ "\x27 to enter the required text."
  | "hotkey", .hotkeyD keys =>
      "I\x27ll press " ++ String.intercalate "+" keys
        ++ " to execute this keyboard shortcut."
  | "press", .pressD key => "I\x27ll press the " ++ key ++ " key."
  | "scroll", .scrollD clicks =>
      "I\x27ll scroll " ++ (if 0 < clicks then "up" else "down")
        ++ " to navigate the content."
  | "drag", _ => "I\x27ll drag from the starting position to the ending position."
  | _, _ => "I\x27ll perform this action to progress with the task."

/-- The three cells `_build_notebook` appends per recorded step. -/
def step_cells (trajectory : List Step) : List Cell :=
  trajectory.flatMap fun step =>
    [create_markdown_cell ("**[user]**\n\nScreenshot: `" ++ step.screenshot ++ "`"),
     create_markdown_cell ("**[assistant]**\n\n" ++ generate_reasoning step),
     create_markdown_cell ("**[tool_call]**\n\n```python\n" ++ step.action ++ "\n```")]

/-- The notebook structure produced by `_build_notebook` (the kernelspec
and language metadata are fixed constants and omitted). -/
structure Notebook where
  nbformat : Nat
  nbformat_minor : Nat
  cells : List Cell
deriving Repr, DecidableEq

/-- `_build_notebook`: metadata cell, instruction cell, then three cells
per step. -/
def build_notebook (trajectory : List Step) (instruction task_id domain : String)
    (now_iso : String) : Notebook :=
  { nbformat := 4
    nbformat_minor := 5
    cells :=
      create_markdown_cell
          (build_metadata_cell task_id domain instruction trajectory.length now_iso)
        :: create_markdown_cell ("## Task Instruction\n\n" ++ instruction)
        :: step_cells trajectory }

set_option maxHeartbeats 1600000 in
/-- C9 counterexample: the same (empty) trajectory generated at two
different wall-clock times yields different notebook content — the
metadata cell embeds `datetime.now().isoformat()`, so generation is not
a pure function of the trajectory. -/
theorem notebook_depends_on_generation_time :
    build_notebook [] "task" "tid" "gimp" "2025-01-01T00:00:00"
      ≠ build_notebook [] "task" "tid" "gimp" "2025-01-02T00:00:00" := by
  decide

/-- C9 (amended): notebook generation is deterministic given the
trajectory, instruction, task config and the generation time; every cell
except the first (metadata) cell depends only on the trajectory and
instruction, and two generations differ exactly when their metadata
cells differ. -/
theorem notebook_pure_except_timestamp (trajectory : List Step)
    (instruction task_id domain t1 t2 : String) :
    (build_notebook trajectory instruction task_id domain t1).cells.drop 1
      = (build_notebook trajectory instruction task_id domain t2).cells.drop 1
    ∧ (build_notebook trajectory instruction task_id domain t1
          = build_notebook trajectory instruction task_id domain t2
        ↔ create_markdown_cell
            (build_metadata_cell task_id domain instruction trajectory.length t1)
          = create_markdown_cell
            (build_metadata_cell task_id domain instruction trajectory.length t2)) := by
  constructor
  · simp only [build_notebook, List.drop_one, List.tail_cons]
  · constructor
    · intro h
      have h2 := congrArg (fun n => n.cells.head?) h
      simp only [build_notebook, List.head?_cons, Option.some.injEq] at h2
      exact h2
    · intro h
      simp only [build_notebook]
      rw [h]

end OverlaySFT
